import Mathlib

/-!
# GUNNS Fluid Distributed Interface — verification development

A shallow embedding of `GunnsFluidDistributedIf` and its payload class
`GunnsFluidDistributedIfData` (GUNNS fluid distributed interface link),
with theorems checking the design document's statements about the mode
arbiter, the demand controller's lag-aware conductance law, the supply
responder's demand-flux stamp, and the per-tick error handling.

Numbers that the C++ holds in `double` are embedded as exact rationals
(`ℚ`); machine epsilons (`DBL_EPSILON`, `FLT_EPSILON`) appear as the
explicit rational constants `2⁻⁵²` and `2⁻²³` where the code compares
against them.  Fallible operations (`GUNNS_ERROR` throws) are embedded
in `Except`.
-/

set_option autoImplicit false

namespace Gunns

/-- `DBL_EPSILON` of IEEE-754 binary64, as the exact rational 2⁻⁵². -/
def DBL_EPSILON : ℚ := 1 / 2 ^ 52

/-- `FLT_EPSILON` of IEEE-754 binary32, as the exact rational 2⁻²³. -/
def FLT_EPSILON : ℚ := 1 / 2 ^ 23

/-- `UnitConversion::KILO_PER_UNIT` (0.001), used to convert mol/s to kmol/s. -/
def KILO_PER_UNIT : ℚ := 1 / 1000

/-- `UnitConversion::UNIT_PER_KILO` (1000), used to convert kPa to Pa. -/
def UNIT_PER_KILO : ℚ := 1000

/-- Modelled from the spec: `MsMath::limitRange` (ms-utils/math/MsMath.hh) is
not among the provided sources; the spec writes it as `clamp(lo, x, hi)`,
the value limited to the range `[lo, hi]`. -/
def limitRange (lo x hi : ℚ) : ℚ := min (max x lo) hi

/-- Modelled from the spec: the integer overload of `MsMath::limitRange`,
`clamp(lo, x, hi)` on integers (used for the latency exponent). -/
def limitRangeInt (lo x hi : ℤ) : ℤ := min (max x lo) hi

/-- The sole error kind raised per tick by the link
(`TsOutOfBoundsException` with cause "Invalid Interface Data"). -/
inductive GunnsError where
  | InvalidInterfaceData
  deriving DecidableEq, Repr

/-- `GunnsFluidDistributedIfData`: the interface payload exchanged each tick.
`moleFractions` holds `numFluidIf` entries and `tcMoleFractions` holds
`numTcIf` entries (the sizes the arrays were allocated with in
`initialize`); `numFluid`/`numTc` are the local network's species counts. -/
structure IfData where
  frameCount      : ℕ
  frameLoopback   : ℕ
  demandMode      : Bool
  capacitance     : ℚ
  source          : ℚ
  energy          : ℚ
  moleFractions   : List ℚ
  tcMoleFractions : List ℚ
  numFluid        : ℕ
  numTc           : ℕ
  numFluidIf      : ℕ
  numTcIf         : ℕ
  numFluidCommon  : ℕ
  numTcCommon     : ℕ
  deriving DecidableEq, Repr

namespace IfData

/-- `GunnsFluidDistributedIfData::initialize`: sets the size terms
(`numFluidIf`/`numTcIf` come from the override values when the override
flag is set, else from the local network sizes), takes the common sizes
as the minima, and allocates the mixture arrays zero-filled at the
interface sizes.  Scalars start at the constructor's zero values. -/
def initData (nFluids nTc : ℕ) (fluidSizesOverride : Bool)
    (nIfFluids nIfTc : ℕ) : IfData :=
  let numFluidIf := if fluidSizesOverride then nIfFluids else nFluids
  let numTcIf    := if fluidSizesOverride then nIfTc else nTc
  { frameCount      := 0
    frameLoopback   := 0
    demandMode      := false
    capacitance     := 0
    source          := 0
    energy          := 0
    moleFractions   := List.replicate numFluidIf 0
    tcMoleFractions := List.replicate numTcIf 0
    numFluid        := nFluids
    numTc           := nTc
    numFluidIf      := numFluidIf
    numTcIf         := numTcIf
    numFluidCommon  := min nFluids numFluidIf
    numTcCommon     := min nTc numTcIf }

/-- `GunnsFluidDistributedIfData::hasValidData`: frame count ≥ 1,
energy > 0, capacitance ≥ 0, source ≥ 0 unless in Demand mode, and the
first `numFluid` bulk entries and first `numTc` trace entries all ≥ 0.
(The C++ loops run to the *local* species counts `mNumFluid`/`mNumTc`,
not the allocated interface sizes; reads past the allocated array —
possible when an override makes the interface narrower than the local
network — are undefined in C++ and read as 0 here.) -/
def hasValidData (d : IfData) : Bool :=
  if d.frameCount < 1 ∨ d.energy ≤ 0 ∨ d.capacitance < 0 ∨
      (d.source < 0 ∧ d.demandMode = false) then
    false
  else
    ((List.range d.numFluid).all fun i => 0 ≤ d.moleFractions.getD i 0) &&
    ((List.range d.numTc).all fun i => 0 ≤ d.tcMoleFractions.getD i 0)

/-- `GunnsFluidDistributedIfData::setMoleFractions`: copy the first
`numFluidCommon` given values into the interface array and zero-fill the
rest up to `numFluidIf`. -/
def setMoleFractions (d : IfData) (fractions : List ℚ) : IfData :=
  { d with moleFractions :=
      (List.range d.numFluidIf).map fun i =>
        if i < d.numFluidCommon then fractions.getD i 0 else 0 }

/-- `GunnsFluidDistributedIfData::setTcMoleFractions`: copy the first
`numTcCommon` given values and zero-fill up to `numTcIf`. -/
def setTcMoleFractions (d : IfData) (fractions : List ℚ) : IfData :=
  { d with tcMoleFractions :=
      (List.range d.numTcIf).map fun i =>
        if i < d.numTcCommon then fractions.getD i 0 else 0 }

/-- `GunnsFluidDistributedIfData::getMoleFractions`: produce the local-size
(`numFluid`) array holding the first `numFluidCommon` interface entries
followed by zeros. -/
def getMoleFractions (d : IfData) : List ℚ :=
  (List.range d.numFluid).map fun i =>
    if i < d.numFluidCommon then d.moleFractions.getD i 0 else 0

/-- `GunnsFluidDistributedIfData::getTcMoleFractions`: produce the
local-size (`numTc`) array holding the first `numTcCommon` interface
entries followed by zeros. -/
def getTcMoleFractions (d : IfData) : List ℚ :=
  (List.range d.numTc).map fun i =>
    if i < d.numTcCommon then d.tcMoleFractions.getD i 0 else 0

end IfData

/-- A `PolyFluid` as far as this link reads or writes one: pressure,
temperature, specific enthalpy, the bulk mass and mole fraction arrays
and the trace-compound mole fraction array. -/
structure Fluid where
  pressure         : ℚ
  temperature      : ℚ
  specificEnthalpy : ℚ
  massFractions    : List ℚ
  moleFractions    : List ℚ
  tcMoleFractions  : List ℚ
  deriving DecidableEq, Repr

/-- Modelled from the spec: the external fluid-properties collaborators
(`GunnsFluidUtils` conversions, `PolyFluid::computeTemperature`, the
enthalpy/temperature relation) are out of scope per the spec's §1 and are
not among the provided sources; they enter only as opaque conversion
functions whose outputs none of the checked claims constrain. -/
structure FluidModel where
  moleToMass : List ℚ → List ℚ
  massToMole : List ℚ → List ℚ
  temperatureOfEnthalpy : ℚ → ℚ
  enthalpyOfTemperature : ℚ → ℚ

/-- The port-0 node as this link reads or writes it: volume (through the
capacitor link), potential, contents, last inflow, and the solver's
network-capacitance outputs. -/
structure Node where
  volume                    : ℚ
  potential                 : ℚ
  content                   : Fluid
  inflow                    : Fluid
  networkCapacitance        : ℚ
  netCapDeltaPotentialSelf  : ℚ
  networkCapacitanceRequest : ℚ
  deriving DecidableEq, Repr

/-- A sibling `GunnsFluidDistributedIf` on the `mOtherIfs` list, as read by
`outputCapacitance`: its supplied capacitance and the solver's
delta-potential at its node (`ourNetCapDp[other node]`). -/
structure OtherIf where
  suppliedCapacitance : ℚ
  deltaPotential      : ℚ
  deriving DecidableEq, Repr

/-- `GunnsFluidDistributedIf`: the link state, together with the pieces of
its port-0 node, capacitor-link edit request, and solver rows (admittance
diagonal and source vector entry) that its member functions touch.
`numFluidLocal` is `mNodes[0]->getFluidConfig()->mNTypes`; `initialize`
passes this same count to both payloads' size terms. -/
structure DistIf where
  inData                 : IfData
  outData                : IfData
  isPairMaster           : Bool
  useEnthalpy            : Bool
  demandOption           : Bool
  modingCapacitanceRatio : ℚ
  demandFilterConstA     : ℚ
  demandFilterConstB     : ℚ
  forceDemandMode        : Bool
  forceSupplyMode        : Bool
  inDataLastDemandMode   : Bool
  framesSinceFlip        : ℤ
  supplyVolume           : ℚ
  effectiveConductivity  : ℚ
  sourcePressure         : ℚ
  demandFlux             : ℚ
  loopLatency            : ℤ
  demandFluxGain         : ℚ
  suppliedCapacitance    : ℚ
  malfBlockageFlag       : Bool
  malfBlockageValue      : ℚ
  conductanceLimit       : ℚ
  admittanceMatrix0      : ℚ
  admittanceUpdate       : Bool
  sourceVector0          : ℚ
  flux                   : ℚ
  node                   : Node
  capEditVolumeFlag      : Bool
  capEditVolume          : ℚ
  internalFluid          : Fluid
  fluidState             : Fluid
  otherIfs               : List OtherIf
  numFluidLocal          : ℕ
  deriving DecidableEq, Repr

namespace DistIf

/-- `mNetworkCapacitanceFlux`: the probe flux requested of the solver. -/
def networkCapacitanceFlux : ℚ := 1 / 10 ^ 6

/-- `GunnsFluidDistributedIf::inputFluid`: sums the incoming bulk mole
fractions mapped into the local species set; raises Invalid Interface
Data when the sum is below `DBL_EPSILON` (before any write to the given
fluid); otherwise normalizes the mixture by the sum, converts to mass
fractions, and produces the written fluid at the given pressure with the
energy applied as temperature (decoded from enthalpy when configured),
returning the bulk fraction sum alongside. -/
def inputFluid (fm : FluidModel) (st : DistIf) (pressure : ℚ)
    (fluid : Fluid) : Except GunnsError (Fluid × ℚ) :=
  let tempMole := st.inData.getMoleFractions
  let s := tempMole.sum
  if s < DBL_EPSILON then
    .error .InvalidInterfaceData
  else
    let normalized := tempMole.map (· / s)
    let massFr := fm.moleToMass normalized
    let temp := if st.useEnthalpy then fm.temperatureOfEnthalpy st.inData.energy
                else st.inData.energy
    .ok ({ fluid with
            pressure := pressure
            temperature := temp
            specificEnthalpy := fm.enthalpyOfTemperature temp
            massFractions := massFr
            moleFractions := normalized
            tcMoleFractions := st.inData.getTcMoleFractions.map (· / s) }, s)

/-- `GunnsFluidDistributedIf::flipToDemandMode`: unless Supply mode is
forced, raise the Demand flag, save the node volume in `supplyVolume`,
request the capacitor link to zero the node volume, and reset the
frames-since-flip counter. -/
def flipToDemandMode (st : DistIf) : DistIf :=
  if st.forceSupplyMode then st
  else
    { st with
      outData := { st.outData with demandMode := true }
      supplyVolume := st.node.volume
      capEditVolumeFlag := true
      capEditVolume := 0
      framesSinceFlip := 0 }

/-- `GunnsFluidDistributedIf::flipToSupplyMode`: unless Demand mode is
forced, clear the Demand flag, request the capacitor link to restore the
saved `supplyVolume`, zero `supplyVolume`, and reset the
frames-since-flip counter. -/
def flipToSupplyMode (st : DistIf) : DistIf :=
  if st.forceDemandMode then st
  else
    { st with
      outData := { st.outData with demandMode := false }
      capEditVolumeFlag := true
      capEditVolume := st.supplyVolume
      supplyVolume := 0
      framesSinceFlip := 0 }

/-- `GunnsFluidDistributedIf::flipModesOnInput`: forced-mode swaps first;
otherwise, on valid incoming data, the Demand/Demand edge detect flips to
Supply, the Supply/Supply start-up race flips the side with the smaller
advertised capacitance (master flips ties) to Demand, and the last
incoming Demand flag is recorded. -/
def flipModesOnInput (st : DistIf) : DistIf :=
  if st.forceDemandMode ∧ st.outData.demandMode = false then
    flipToDemandMode st
  else if st.forceSupplyMode ∧ st.outData.demandMode then
    flipToSupplyMode st
  else if st.inData.hasValidData then
    let st' :=
      if st.outData.demandMode ∧ st.inData.demandMode ∧
          st.inDataLastDemandMode = false then
        flipToSupplyMode st
      else if st.inData.demandMode = false ∧ st.outData.demandMode = false then
        if st.outData.capacitance < st.inData.capacitance ∨
            (st.isPairMaster ∧ st.outData.capacitance = st.inData.capacitance) then
          flipToDemandMode st
        else st
      else st
    { st' with inDataLastDemandMode := st.inData.demandMode }
  else st

/-- `GunnsFluidDistributedIf::processInputsDemand`: in Demand mode with
valid Supply data incoming, set the source pressure from the incoming
source (Pa → kPa) and overwrite the node contents (and the shadow fluid
state) with the incoming fluid; otherwise in Demand mode hold the node
and set the source pressure to the node potential. -/
def processInputsDemand (fm : FluidModel) (st : DistIf) :
    Except GunnsError DistIf :=
  if st.outData.demandMode then
    if st.inData.hasValidData ∧ st.inData.demandMode = false then
      let sp := st.inData.source * KILO_PER_UNIT
      match inputFluid fm st sp st.node.content with
      | .error e => .error e
      | .ok (f, _) =>
          .ok { st with
                sourcePressure := sp
                node := { st.node with content := f }
                fluidState := f }
    else
      .ok { st with sourcePressure := st.node.potential }
  else
    .ok st

/-- `GunnsFluidDistributedIf::processInputsSupply`: zero the demand flux;
when in Supply mode, zero the source pressure, and with valid Demand data
incoming load the internal fluid and stamp the demand flux
`−inSource · KILO_PER_UNIT · S` where `S` is the incoming bulk fraction
sum returned by `inputFluid`. -/
def processInputsSupply (fm : FluidModel) (st : DistIf) :
    Except GunnsError DistIf :=
  let st := { st with demandFlux := 0 }
  if st.outData.demandMode = false then
    let st := { st with sourcePressure := 0 }
    if st.inData.hasValidData ∧ st.inData.demandMode then
      match inputFluid fm st 1 st.internalFluid with
      | .error e => .error e
      | .ok (f, s) =>
          .ok { st with
                internalFluid := f
                demandFlux := -st.inData.source * KILO_PER_UNIT * s }
    else
      .ok st
  else
    .ok st

/-- `GunnsFluidDistributedIf::processInputs`: mode flips on input, Demand
then Supply input processing, then advance the outbound frame count,
measure `loopLatency = outFrameCount − inFrameLoopback`, and echo the
incoming frame count into the outbound loopback. -/
def processInputs (fm : FluidModel) (st : DistIf) :
    Except GunnsError DistIf :=
  let st := flipModesOnInput st
  match processInputsDemand fm st with
  | .error e => .error e
  | .ok st =>
    match processInputsSupply fm st with
    | .error e => .error e
    | .ok st =>
      let st := { st with outData := { st.outData with
                    frameCount := st.outData.frameCount + 1 } }
      let st := { st with loopLatency :=
                    (st.outData.frameCount : ℤ)
                      - (st.inData.frameLoopback : ℤ) }
      .ok { st with outData := { st.outData with
              frameLoopback := st.inData.frameCount } }

/-- `GunnsFluidDistributedIf::flipModesOnCapacitance`: after at least one
full lag cycle in Supply mode, flip to Demand when the outbound
capacitance times the moding ratio drops below the incoming capacitance,
and zero the outbound source so the peer does not read the stale
pressure as a flow demand. -/
def flipModesOnCapacitance (st : DistIf) : DistIf :=
  if st.framesSinceFlip > st.loopLatency ∧
      st.outData.capacitance * st.modingCapacitanceRatio < st.inData.capacitance then
    let st := flipToDemandMode st
    { st with outData := { st.outData with source := 0 } }
  else st

/-- `GunnsFluidDistributedIf::outputCapacitance`: the node's network
capacitance, minus this link's own supplied capacitance, minus each
sibling Demand interface's supplied capacitance scaled by the solver's
delta-potential ratio, floored at zero. -/
def outputCapacitance (st : DistIf) : DistIf :=
  let base := st.node.networkCapacitance - st.suppliedCapacitance
  let cap := st.otherIfs.foldl
    (fun c o =>
      if o.suppliedCapacitance > DBL_EPSILON then
        if o.deltaPotential > DBL_EPSILON then
          c - o.suppliedCapacitance *
              (o.deltaPotential / max st.node.netCapDeltaPotentialSelf DBL_EPSILON)
        else c
      else c)
    base
  { st with outData := { st.outData with capacitance := max 0 cap } }

/-- `GunnsFluidDistributedIf::outputFluid`: publish the fluid's energy
(enthalpy or temperature), convert its mass fractions to mole fractions,
normalize bulk and trace fractions together to sum to 1, write them to
the outbound payload, and return the pre-normalization total. -/
def outputFluid (fm : FluidModel) (st : DistIf) (fluid : Fluid) :
    DistIf × ℚ :=
  let energy := if st.useEnthalpy then fluid.specificEnthalpy
                else fluid.temperature
  let tempMole := fm.massToMole fluid.massFractions
  let moleFractionSum := fluid.tcMoleFractions.sum + tempMole.sum
  let outMole := tempMole.map (· / moleFractionSum)
  let outTc := fluid.tcMoleFractions.map (· / moleFractionSum)
  let out := ((st.outData.setMoleFractions outMole).setTcMoleFractions outTc)
  ({ st with outData := { out with energy := energy } }, moleFractionSum)

/-- `GunnsFluidDistributedIf::checkNegativeFluidFractions`: true when any
bulk mole fraction over the local species or any trace fraction is
negative. -/
def checkNegativeFluidFractions (st : DistIf) (fluid : Fluid) : Bool :=
  ((List.range st.numFluidLocal).any fun i => fluid.moleFractions.getD i 0 < 0) ||
  (fluid.tcMoleFractions.any fun x => x < 0)

/-- `GunnsFluidDistributedIf::processOutputsSupply`: publish the outbound
capacitance, the node potential as the source (kPa → Pa), and the node
contents as the outbound fluid, recording them in the shadow fluid
state. -/
def processOutputsSupply (fm : FluidModel) (st : DistIf) : DistIf :=
  let st := outputCapacitance st
  let st := { st with outData := { st.outData with
                source := st.node.potential * UNIT_PER_KILO } }
  let st := (outputFluid fm st st.node.content).1
  { st with fluidState := st.node.content }

/-- `GunnsFluidDistributedIf::processOutputsDemand`: publish the outbound
capacitance and the molar flow (kmol/s → mol/s, scaled up by the
bulk+trace total from `outputFluid`), taken from the node inflow unless
it is reset or carries negative fractions, in which case the node
contents are used. -/
def processOutputsDemand (fm : FluidModel) (st : DistIf) : DistIf :=
  let st := outputCapacitance st
  let useFluid :=
    if st.node.inflow.temperature > 0 then
      if checkNegativeFluidFractions st st.node.inflow then st.node.content
      else st.node.inflow
    else st.node.content
  let (st, s) := outputFluid fm st useFluid
  { st with outData := { st.outData with
      source := st.flux * UNIT_PER_KILO * s } }

/-- `GunnsFluidDistributedIf::processOutputs`: Demand-side or Supply-side
output processing (the latter followed by the capacitance-driven flip
check), then advance the frames-since-flip counter. -/
def processOutputs (fm : FluidModel) (st : DistIf) : DistIf :=
  let st :=
    if st.outData.demandMode then processOutputsDemand fm st
    else flipModesOnCapacitance (processOutputsSupply fm st)
  { st with framesSinceFlip := st.framesSinceFlip + 1 }

/-- `GunnsFluidDistributedIf::step`: in Demand mode with a meaningful time
step and both capacitances above `FLT_EPSILON`, compute the lag-aware
demand flux gain and conductance (optionally with the one-step series
damping term), scaled by the blockage malfunction; otherwise in Demand
mode fall back to gain 1; in Supply mode zero the conductivity.  Then
stamp the limited conductance on the admittance diagonal, record the
supplied capacitance (Demand only), build the source vector entry, and
request the node's network capacitance with the probe flux. -/
def step (st : DistIf) (dt : ℚ) : DistIf :=
  let st :=
    if st.outData.demandMode ∧ dt > DBL_EPSILON then
      let st :=
        if st.outData.capacitance > FLT_EPSILON ∧
            st.inData.capacitance > FLT_EPSILON then
          let csOverCd := limitRange 1
            (st.inData.capacitance / st.outData.capacitance)
            st.modingCapacitanceRatio
          let exponent := limitRangeInt 1 st.loopLatency 100
          let gainLimit := min 1
            (st.demandFilterConstA * st.demandFilterConstB ^ exponent.toNat)
          let gain := gainLimit + (1 - gainLimit) * (csOverCd - 1) * 4
          let conductance := gain * st.inData.capacitance / dt
          let eff :=
            if st.demandOption then conductance
            else 1 / max (1 / conductance + dt / st.outData.capacitance) DBL_EPSILON
          { st with demandFluxGain := gain, effectiveConductivity := eff }
        else
          { st with demandFluxGain := 1,
                    effectiveConductivity := 1 * st.inData.capacitance / dt }
      if st.malfBlockageFlag then
        { st with effectiveConductivity :=
            st.effectiveConductivity * (1 - st.malfBlockageValue) }
      else st
    else
      { st with effectiveConductivity := 0 }
  let systemConductance := limitRange 0 st.effectiveConductivity st.conductanceLimit
  let st :=
    if |st.admittanceMatrix0 - systemConductance| > 0 then
      { st with admittanceMatrix0 := systemConductance, admittanceUpdate := true }
    else st
  let st :=
    if st.outData.demandMode then
      { st with suppliedCapacitance := st.admittanceMatrix0 * dt }
    else
      { st with suppliedCapacitance := 0 }
  let st := { st with sourceVector0 :=
                st.sourcePressure * st.admittanceMatrix0 + st.demandFlux }
  { st with node := { st.node with
      networkCapacitanceRequest := networkCapacitanceFlux } }

end DistIf

/-! ## Concrete fixtures used by witnesses and counterexamples -/

/-- An identity fluid-properties model for instantiating the opaque
external conversions at concrete inputs. -/
def fmId : FluidModel :=
  { moleToMass := fun l => l
    massToMole := fun l => l
    temperatureOfEnthalpy := fun e => e
    enthalpyOfTemperature := fun t => t }

/-- A one-species fluid at standard conditions. -/
def fluid0 : Fluid :=
  { pressure := 101325 / 1000
    temperature := 294
    specificEnthalpy := 300
    massFractions := [1]
    moleFractions := [1]
    tcMoleFractions := [] }

/-- A valid one-species Supply-side payload. -/
def payload0 : IfData :=
  { frameCount := 1
    frameLoopback := 0
    demandMode := false
    capacitance := 1
    source := 0
    energy := 294
    moleFractions := [1]
    tcMoleFractions := []
    numFluid := 1
    numTc := 0
    numFluidIf := 1
    numTcIf := 0
    numFluidCommon := 1
    numTcCommon := 0 }

/-- A node fixture with volume 2 and standard pressure. -/
def node0 : Node :=
  { volume := 2
    potential := 101325 / 1000
    content := fluid0
    inflow := fluid0
    networkCapacitance := 1
    netCapDeltaPotentialSelf := 1
    networkCapacitanceRequest := 0 }

/-- A link fixture: default configuration constants, Supply mode, no force
flags, no blockage. -/
def base : DistIf :=
  { inData := payload0
    outData := payload0
    isPairMaster := true
    useEnthalpy := false
    demandOption := false
    modingCapacitanceRatio := 5 / 4
    demandFilterConstA := 3 / 2
    demandFilterConstB := 3 / 4
    forceDemandMode := false
    forceSupplyMode := false
    inDataLastDemandMode := false
    framesSinceFlip := 0
    supplyVolume := 0
    effectiveConductivity := 0
    sourcePressure := 0
    demandFlux := 0
    loopLatency := 0
    demandFluxGain := 1
    suppliedCapacitance := 0
    malfBlockageFlag := false
    malfBlockageValue := 0
    conductanceLimit := 10 ^ 8
    admittanceMatrix0 := 0
    admittanceUpdate := false
    sourceVector0 := 0
    flux := 0
    node := node0
    capEditVolumeFlag := false
    capEditVolume := 0
    internalFluid := fluid0
    fluidState := fluid0
    otherIfs := []
    numFluidLocal := 1 }

/-! ## Claims -/

/-- A payload that passes `hasValidData` while holding a negative bulk
entry beyond the local species count: local network has 1 species, the
interface width is overridden to 2, and the second (unchecked) entry is
negative. -/
def payloadNegTail : IfData :=
  { payload0 with moleFractions := [0, -1], numFluidIf := 2 }

/-- C2 counterexample: with an overridden interface width of 2 over a
1-species local network, `hasValidData` returns `true` on a payload whose
second held bulk entry is −1, so validity does not require every entry
held by the payload to be non-negative. -/
theorem c2_hasValidData_counterexample :
    payloadNegTail.hasValidData = true ∧
      ¬ (∀ x ∈ payloadNegTail.moleFractions, 0 ≤ x) := by
  constructor
  · simp [payloadNegTail, payload0, IfData.hasValidData]
  · intro h
    have := h (-1) (by simp [payloadNegTail, payload0])
    norm_num at this

/-- C2 (amended): over payloads whose arrays have the allocated interface
sizes and whose local species counts do not exceed them (the regime with
no out-of-bounds reads), `hasValidData` returns `true` iff the frame
count is at least 1, energy is positive, capacitance is non-negative,
the source is non-negative whenever Demand mode is off, and the first
`numFluid` bulk entries and first `numTc` trace entries are all
non-negative — entries beyond the local species counts are not checked. -/
theorem c2_hasValidData_iff (d : IfData)
    (hf : d.moleFractions.length = d.numFluidIf)
    (ht : d.tcMoleFractions.length = d.numTcIf)
    (hnf : d.numFluid ≤ d.numFluidIf)
    (hnt : d.numTc ≤ d.numTcIf) :
    d.hasValidData = true ↔
      (1 ≤ d.frameCount ∧ 0 < d.energy ∧ 0 ≤ d.capacitance ∧
        (d.demandMode = false → 0 ≤ d.source) ∧
        (∀ i < d.numFluid, 0 ≤ d.moleFractions.getD i 0) ∧
        (∀ i < d.numTc, 0 ≤ d.tcMoleFractions.getD i 0)) := by
  unfold IfData.hasValidData
  by_cases hcond : d.frameCount < 1 ∨ d.energy ≤ 0 ∨ d.capacitance < 0 ∨
      (d.source < 0 ∧ d.demandMode = false)
  · simp only [hcond, if_true]
    constructor
    · intro hfalse; exact absurd hfalse (by simp)
    · rintro ⟨h1, h2, h3, h4, -, -⟩
      rcases hcond with h | h | h | ⟨h, h'⟩
      · omega
      · exact absurd h2 (not_lt.mpr h)
      · exact absurd h3 (not_le.mpr h)
      · exact absurd (h4 h') (not_le.mpr h)
  · simp only [hcond, if_false]
    push_neg at hcond
    obtain ⟨h1, h2, h3, h4⟩ := hcond
    have h4' : d.demandMode = false → 0 ≤ d.source := by
      intro hd
      by_contra hs
      exact absurd hd (h4 (not_le.mp hs))
    simp only [Bool.and_eq_true, List.all_eq_true, List.mem_range,
      decide_eq_true_eq]
    constructor
    · rintro ⟨ha, hb⟩
      exact ⟨by omega, h2, h3, h4', ha, hb⟩
    · rintro ⟨-, -, -, -, ha, hb⟩
      exact ⟨ha, hb⟩

/-- C2 witness: the amended equivalence evaluated on the valid fixture
payload. -/
theorem c2_hasValidData_iff_witness :
    payload0.hasValidData = true := by
  rw [c2_hasValidData_iff payload0 rfl rfl (by norm_num [payload0])
        (by norm_num [payload0])]
  refine ⟨by norm_num [payload0], by norm_num [payload0],
    by norm_num [payload0], fun _ => by norm_num [payload0], ?_, ?_⟩
  · intro i hi
    norm_num [payload0] at hi
    subst hi
    norm_num [payload0]
  · intro i hi
    norm_num [payload0] at hi

/-- C3: with neither force flag set, a valid inbound payload, and both the
local side and the inbound payload in Supply mode, `flipModesOnInput`
flips to Demand iff the outbound capacitance is below the inbound one or
they are equal and this is the pair master; on the flip, the node volume
is saved in `supplyVolume` and the capacitor link is asked to zero the
node volume. -/
theorem c3_startupRace (st : DistIf)
    (hfd : st.forceDemandMode = false) (hfs : st.forceSupplyMode = false)
    (hvalid : st.inData.hasValidData = true)
    (hout : st.outData.demandMode = false)
    (hin : st.inData.demandMode = false) :
    ((DistIf.flipModesOnInput st).outData.demandMode = true ↔
      (st.outData.capacitance < st.inData.capacitance ∨
        (st.isPairMaster = true ∧
          st.outData.capacitance = st.inData.capacitance))) ∧
    ((DistIf.flipModesOnInput st).outData.demandMode = true →
      (DistIf.flipModesOnInput st).supplyVolume = st.node.volume ∧
      (DistIf.flipModesOnInput st).capEditVolumeFlag = true ∧
      (DistIf.flipModesOnInput st).capEditVolume = 0) := by
  by_cases hc : st.outData.capacitance < st.inData.capacitance ∨
      (st.isPairMaster ∧ st.outData.capacitance = st.inData.capacitance)
  · simp [DistIf.flipModesOnInput, DistIf.flipToDemandMode, hfd, hfs, hvalid,
      hout, hin, hc]
  · simp [DistIf.flipModesOnInput, hfd, hfs, hvalid, hout, hin, hc]

/-- C3 witness: both sides advertise capacitance 1 and this side is the
pair master, so the tie flips it to Demand, saving the node volume 2 and
requesting a zero node volume. -/
theorem c3_startupRace_witness :
    (DistIf.flipModesOnInput base).outData.demandMode = true ∧
    (DistIf.flipModesOnInput base).supplyVolume = 2 ∧
    (DistIf.flipModesOnInput base).capEditVolumeFlag = true ∧
    (DistIf.flipModesOnInput base).capEditVolume = 0 := by
  have h := c3_startupRace base rfl rfl
    (by norm_num [base, payload0, IfData.hasValidData]) rfl rfl
  have hflip : (DistIf.flipModesOnInput base).outData.demandMode = true :=
    h.1.mpr (Or.inr ⟨rfl, rfl⟩)
  obtain ⟨h1, h2, h3⟩ := h.2 hflip
  exact ⟨hflip, by rw [h1]; rfl, h2, h3⟩

/-- A Demand-side link holding a stale outbound source of 5 and a saved
supply volume of 7, receiving valid Demand data whose previous frame was
not Demand (the handshake edge). -/
def stHandshake : DistIf :=
  { base with
    outData := { payload0 with demandMode := true, source := 5 }
    inData := { payload0 with demandMode := true }
    inDataLastDemandMode := false
    supplyVolume := 7 }

/-- C5 counterexample: on the handshake flip from Demand to Supply the
outbound source field keeps its stale value 5 — `flipToSupplyMode` does
not zero it (the zeroing of the outbound source instead accompanies the
capacitance-driven flip to Demand in `flipModesOnCapacitance`). -/
theorem c5_flipToSupply_counterexample :
    (DistIf.flipModesOnInput stHandshake).outData.demandMode = false ∧
    (DistIf.flipModesOnInput stHandshake).outData.source ≠ 0 := by
  norm_num [stHandshake, base, payload0, DistIf.flipModesOnInput,
    DistIf.flipToSupplyMode, IfData.hasValidData]

/-- C5 (amended): whenever the link flips from Demand to Supply mode (via
the handshake or the force flag), the capacitor link is asked to restore
the node volume to `supplyVolume`, `supplyVolume` is zeroed,
`framesSinceFlip` is reset to 0, and every outbound payload field other
than the Demand flag — the source included — is unchanged by the flip. -/
theorem c5_flipToSupply (st : DistIf)
    (h1 : st.outData.demandMode = true)
    (h2 : st.forceDemandMode = false)
    (h3 : st.forceSupplyMode = true ∨
      (st.inData.hasValidData = true ∧ st.inData.demandMode = true ∧
        st.inDataLastDemandMode = false)) :
    (DistIf.flipModesOnInput st).outData.demandMode = false ∧
    (DistIf.flipModesOnInput st).capEditVolumeFlag = true ∧
    (DistIf.flipModesOnInput st).capEditVolume = st.supplyVolume ∧
    (DistIf.flipModesOnInput st).supplyVolume = 0 ∧
    (DistIf.flipModesOnInput st).framesSinceFlip = 0 ∧
    (DistIf.flipModesOnInput st).outData.source = st.outData.source ∧
    (DistIf.flipModesOnInput st).outData.capacitance = st.outData.capacitance ∧
    (DistIf.flipModesOnInput st).outData.energy = st.outData.energy ∧
    (DistIf.flipModesOnInput st).outData.frameCount = st.outData.frameCount ∧
    (DistIf.flipModesOnInput st).outData.frameLoopback
      = st.outData.frameLoopback ∧
    (DistIf.flipModesOnInput st).outData.moleFractions
      = st.outData.moleFractions ∧
    (DistIf.flipModesOnInput st).outData.tcMoleFractions
      = st.outData.tcMoleFractions := by
  rcases h3 with hforce | ⟨hvalid, hin, hlast⟩
  · simp [DistIf.flipModesOnInput, DistIf.flipToSupplyMode, h1, h2, hforce]
  · by_cases hfs : st.forceSupplyMode
    · simp [DistIf.flipModesOnInput, DistIf.flipToSupplyMode, h1, h2, hfs]
    · simp [DistIf.flipModesOnInput, DistIf.flipToSupplyMode, h1, h2, hfs,
        hvalid, hin, hlast]

/-- C5 witness: the amended flip applied to the handshake fixture: the
volume-restore request carries the saved 7, the saved volume and the
frame counter are zeroed, and the outbound source keeps its value 5. -/
theorem c5_flipToSupply_witness :
    (DistIf.flipModesOnInput stHandshake).outData.demandMode = false ∧
    (DistIf.flipModesOnInput stHandshake).capEditVolume = 7 ∧
    (DistIf.flipModesOnInput stHandshake).supplyVolume = 0 ∧
    (DistIf.flipModesOnInput stHandshake).framesSinceFlip = 0 ∧
    (DistIf.flipModesOnInput stHandshake).outData.source = 5 := by
  have h := c5_flipToSupply stHandshake rfl rfl
    (Or.inr ⟨by norm_num [stHandshake, payload0, IfData.hasValidData],
      rfl, rfl⟩)
  obtain ⟨ha, -, hb, hc, hd, he, -⟩ := h
  refine ⟨ha, by rw [hb]; norm_num [stHandshake], hc, hd,
    by rw [he]; norm_num [stHandshake, payload0]⟩

/-- A Supply-side link pinned by the force-Supply flag, past the lag gate
and with an inbound capacitance far above its own. -/
def stForcedSupply : DistIf :=
  { base with
    forceSupplyMode := true
    framesSinceFlip := 5
    loopLatency := 1
    inData := { payload0 with capacitance := 100 } }

/-- C4 counterexample: with the force-Supply flag set, the capacitance
condition holds (`framesSinceFlip` 5 > `loopLatency` 1 and 1·1.25 < 100)
yet `processOutputs` leaves the link in Supply mode, so the flip is not
equivalent to the capacitance condition alone. -/
theorem c4_capacitanceFlip_counterexample :
    stForcedSupply.loopLatency < stForcedSupply.framesSinceFlip ∧
    (DistIf.processOutputsSupply fmId stForcedSupply).outData.capacitance *
      stForcedSupply.modingCapacitanceRatio <
      stForcedSupply.inData.capacitance ∧
    (DistIf.processOutputs fmId stForcedSupply).outData.demandMode = false := by
  refine ⟨by norm_num [stForcedSupply, base], ?_, ?_⟩
  · norm_num [stForcedSupply, base, payload0, fmId, fluid0, node0,
      DistIf.processOutputsSupply, DistIf.outputCapacitance,
      DistIf.outputFluid, IfData.setMoleFractions, IfData.setTcMoleFractions,
      UNIT_PER_KILO, List.range_succ]
  · norm_num [stForcedSupply, base, payload0, fmId, fluid0, node0,
      DistIf.processOutputs, DistIf.processOutputsSupply,
      DistIf.outputCapacitance, DistIf.outputFluid, IfData.setMoleFractions,
      IfData.setTcMoleFractions, DistIf.flipModesOnCapacitance,
      DistIf.flipToDemandMode, UNIT_PER_KILO, List.range_succ]

/-- C4 (amended): while in Supply mode and not pinned by the force-Supply
flag, `processOutputs` flips the link to Demand iff `framesSinceFlip`
exceeds `loopLatency` and the just-published outbound capacitance times
the moding ratio is below the inbound capacitance; a side in Demand mode
never flips on capacitance. -/
theorem c4_capacitanceFlip (fm : FluidModel) (st : DistIf)
    (hmode : st.outData.demandMode = false)
    (hforce : st.forceSupplyMode = false) :
    ((DistIf.processOutputs fm st).outData.demandMode = true ↔
      (st.loopLatency < st.framesSinceFlip ∧
        (DistIf.processOutputsSupply fm st).outData.capacitance *
          st.modingCapacitanceRatio < st.inData.capacitance)) ∧
    (∀ st₂ : DistIf, st₂.outData.demandMode = true →
      (DistIf.processOutputs fm st₂).outData.demandMode = true) := by
  constructor
  · have hpres :
        (DistIf.processOutputsSupply fm st).outData.demandMode
            = st.outData.demandMode ∧
        (DistIf.processOutputsSupply fm st).framesSinceFlip
            = st.framesSinceFlip ∧
        (DistIf.processOutputsSupply fm st).loopLatency = st.loopLatency ∧
        (DistIf.processOutputsSupply fm st).inData = st.inData ∧
        (DistIf.processOutputsSupply fm st).modingCapacitanceRatio
            = st.modingCapacitanceRatio ∧
        (DistIf.processOutputsSupply fm st).forceSupplyMode
            = st.forceSupplyMode := by
      simp [DistIf.processOutputsSupply, DistIf.outputCapacitance,
        DistIf.outputFluid, IfData.setMoleFractions, IfData.setTcMoleFractions]
    obtain ⟨p1, p2, p3, p4, p5, p6⟩ := hpres
    simp only [DistIf.processOutputs, hmode, Bool.false_eq_true, if_false]
    by_cases hc : st.loopLatency < st.framesSinceFlip ∧
        (DistIf.processOutputsSupply fm st).outData.capacitance *
          st.modingCapacitanceRatio < st.inData.capacitance
    · simp only [DistIf.flipModesOnCapacitance, p2, p3, p4, p5]
      rw [if_pos hc]
      simp only [DistIf.flipToDemandMode, p6, hforce, Bool.false_eq_true,
        if_false]
      simp [hc]
    · simp only [DistIf.flipModesOnCapacitance, p2, p3, p4, p5]
      rw [if_neg hc]
      simp only [p1, hmode]
      constructor
      · intro h; exact absurd h (by simp)
      · intro h; exact absurd h hc
  · intro st₂ h₂
    simp [DistIf.processOutputs, h₂, DistIf.processOutputsDemand,
      DistIf.outputCapacitance, DistIf.outputFluid, IfData.setMoleFractions,
      IfData.setTcMoleFractions]

/-- The force-free variant of `stForcedSupply`: Supply side past the lag
gate, inbound capacitance 100 against a local 1 with ratio 1.25. -/
def stCapFlip : DistIf :=
  { base with
    framesSinceFlip := 5
    loopLatency := 1
    inData := { payload0 with capacitance := 100 } }

/-- C4 witness: the amended equivalence applied at `stCapFlip` (the flip
fires: 5 > 1 and 1·1.25 < 100) and, for the Demand-side part, at the same
state already in Demand mode. -/
theorem c4_capacitanceFlip_witness :
    (DistIf.processOutputs fmId stCapFlip).outData.demandMode = true ∧
    (DistIf.processOutputs fmId
      { stCapFlip with
        outData := { stCapFlip.outData with demandMode := true } }
      ).outData.demandMode = true := by
  constructor
  · refine (c4_capacitanceFlip fmId stCapFlip rfl rfl).1.mpr
      ⟨by norm_num [stCapFlip, base], ?_⟩
    have : (DistIf.processOutputsSupply fmId stCapFlip).outData.capacitance
        = 1 := by
      norm_num [stCapFlip, base, payload0, fmId, fluid0, node0,
        DistIf.processOutputsSupply, DistIf.outputCapacitance,
        DistIf.outputFluid, IfData.setMoleFractions,
        IfData.setTcMoleFractions, UNIT_PER_KILO, List.range_succ]
    rw [this]
    norm_num [stCapFlip, base, payload0]
  · exact (c4_capacitanceFlip fmId stCapFlip rfl rfl).2 _ rfl

/-- The spec's lag-aware demand gain (§4.3):
`r = clamp(1, Cs/Cd, modingCapacitanceRatio)`, `n = clamp(1, loopLatency,
100)`, `gLimit = min(1, A·Bⁿ)`, `gain = gLimit + (1 − gLimit)·(r − 1)·4`.
Stated from the spec's words, to be compared with `DistIf.step`. -/
def specDemandGain (st : DistIf) : ℚ :=
  let r := limitRange 1 (st.inData.capacitance / st.outData.capacitance)
    st.modingCapacitanceRatio
  let n := limitRangeInt 1 st.loopLatency 100
  let gLimit := min 1 (st.demandFilterConstA * st.demandFilterConstB ^ n.toNat)
  gLimit + (1 - gLimit) * (r - 1) * 4

/-- The spec's demand conductance (§4.3): `baseG = gain·Cs/dt`,
`G = baseG` under the demand option, else
`1 / max(1/baseG + dt/Cd, ε)`.  Stated from the spec's words. -/
def specDemandConductance (st : DistIf) (dt : ℚ) : ℚ :=
  let baseG := specDemandGain st * st.inData.capacitance / dt
  if st.demandOption then baseG
  else 1 / max (1 / baseG + dt / st.outData.capacitance) DBL_EPSILON

/-- A Demand-side link with unit capacitances, latency 1, the demand
option set, and the blockage malfunction active at one half. -/
def stBlocked : DistIf :=
  { base with
    outData := { payload0 with demandMode := true }
    malfBlockageFlag := true
    malfBlockageValue := 1 / 2
    loopLatency := 1
    demandOption := true }

/-- C1 counterexample: all of the claim's premises hold (Demand mode,
dt = 1 > DBL_EPSILON, both capacitances 1 > FLT_EPSILON), yet with the
blockage malfunction active at 1/2 the stored effective conductivity is
baseG·(1 − 1/2) = 1/2, not the claimed baseG = 1. -/
theorem c1_demandConductance_counterexample :
    stBlocked.outData.demandMode = true ∧
    DBL_EPSILON < (1 : ℚ) ∧
    FLT_EPSILON < stBlocked.outData.capacitance ∧
    FLT_EPSILON < stBlocked.inData.capacitance ∧
    (DistIf.step stBlocked 1).effectiveConductivity ≠
      specDemandConductance stBlocked 1 := by
  refine ⟨rfl, by norm_num [DBL_EPSILON],
    by norm_num [stBlocked, payload0, FLT_EPSILON],
    by norm_num [stBlocked, base, payload0, FLT_EPSILON], ?_⟩
  have hspec : specDemandConductance stBlocked 1 = 1 := by
    norm_num [specDemandConductance, specDemandGain, stBlocked, base,
      payload0, limitRange, limitRangeInt]
  have hstep : (DistIf.step stBlocked 1).effectiveConductivity = 1 / 2 := by
    norm_num [DistIf.step, stBlocked, base, payload0, limitRange,
      limitRangeInt, DBL_EPSILON, FLT_EPSILON]
  rw [hspec, hstep]
  norm_num

/-- C1 (amended): on a `step(dt)` call in Demand mode with
`dt > DBL_EPSILON`, both capacitances above `FLT_EPSILON`, and the
blockage malfunction inactive, the stored demand flux gain and effective
conductivity follow the spec's lag-aware law exactly; in particular with
`A = 1.5`, `B = 0.75`, a moding ratio ≥ 1 and equal capacitances, the
gain at latency 8 is within 0.001 of 0.1501, and at latency 1 it is
exactly 1. -/
theorem c1_demandConductance (st : DistIf) (dt : ℚ)
    (hmode : st.outData.demandMode = true)
    (hdt : DBL_EPSILON < dt)
    (hcd : FLT_EPSILON < st.outData.capacitance)
    (hcs : FLT_EPSILON < st.inData.capacitance)
    (hblock : st.malfBlockageFlag = false) :
    (DistIf.step st dt).demandFluxGain = specDemandGain st ∧
    (DistIf.step st dt).effectiveConductivity = specDemandConductance st dt ∧
    (st.demandFilterConstA = 3 / 2 ∧ st.demandFilterConstB = 3 / 4 ∧
      1 ≤ st.modingCapacitanceRatio ∧ st.loopLatency = 8 ∧
      st.inData.capacitance = st.outData.capacitance →
      |specDemandGain st - 1501 / 10000| < 1 / 1000) ∧
    (st.demandFilterConstA = 3 / 2 ∧ st.demandFilterConstB = 3 / 4 ∧
      1 ≤ st.modingCapacitanceRatio ∧ st.loopLatency = 1 ∧
      st.inData.capacitance = st.outData.capacitance →
      specDemandGain st = 1) := by
  have hne : st.outData.capacitance ≠ 0 := by
    intro h
    rw [h] at hcd
    norm_num [FLT_EPSILON] at hcd
  refine ⟨?_, ?_, ?_, ?_⟩
  · simp only [DistIf.step, hmode, hdt, hcd, hcs, and_self, if_true,
      hblock, Bool.false_eq_true, if_false, true_and]
    split_ifs <;> simp [specDemandGain]
  · simp only [DistIf.step, hmode, hdt, hcd, hcs, and_self, if_true,
      hblock, Bool.false_eq_true, if_false, true_and]
    split_ifs <;> simp_all [specDemandConductance, specDemandGain]
  · rintro ⟨hA, hB, hr, hn, hcap⟩
    rw [specDemandGain, hA, hB, hn, hcap, div_self hne]
    have h8 : (8 : ℤ).toNat = 8 := rfl
    norm_num [limitRange, limitRangeInt, min_eq_left hr, h8, min_def, abs_lt]
  · rintro ⟨hA, hB, hr, hn, hcap⟩
    rw [specDemandGain, hA, hB, hn, hcap, div_self hne]
    have h1 : (1 : ℤ).toNat = 1 := rfl
    norm_num [limitRange, limitRangeInt, min_eq_left hr, h1, min_def]

/-- A Demand-side link with unit capacitances and measured latency 8. -/
def stDemand8 : DistIf :=
  { base with
    outData := { payload0 with demandMode := true }
    loopLatency := 8 }

/-- A Demand-side link with unit capacitances and measured latency 1. -/
def stDemand1 : DistIf :=
  { base with
    outData := { payload0 with demandMode := true }
    loopLatency := 1 }

/-- C1 witness: the lag-aware law applied at latency 8 (gain within 0.001
of 0.1501) and at latency 1 (gain exactly 1), with default constants
A = 1.5, B = 0.75, ratio 1.25 and equal unit capacitances. -/
theorem c1_demandConductance_witness :
    (DistIf.step stDemand8 1).demandFluxGain = specDemandGain stDemand8 ∧
    |specDemandGain stDemand8 - 1501 / 10000| < 1 / 1000 ∧
    specDemandGain stDemand1 = 1 := by
  have hdt : DBL_EPSILON < (1 : ℚ) := by norm_num [DBL_EPSILON]
  have hc8o : FLT_EPSILON < stDemand8.outData.capacitance := by
    norm_num [stDemand8, payload0, FLT_EPSILON]
  have hc8i : FLT_EPSILON < stDemand8.inData.capacitance := by
    norm_num [stDemand8, base, payload0, FLT_EPSILON]
  have hc1o : FLT_EPSILON < stDemand1.outData.capacitance := by
    norm_num [stDemand1, payload0, FLT_EPSILON]
  have hc1i : FLT_EPSILON < stDemand1.inData.capacitance := by
    norm_num [stDemand1, base, payload0, FLT_EPSILON]
  have h8 := c1_demandConductance stDemand8 1 rfl hdt hc8o hc8i rfl
  have h1 := c1_demandConductance stDemand1 1 rfl hdt hc1o hc1i rfl
  refine ⟨h8.1, h8.2.2.1 ⟨rfl, rfl, by norm_num [stDemand8, base], rfl, rfl⟩,
    h1.2.2.2 ⟨rfl, rfl, by norm_num [stDemand1, base], rfl, rfl⟩⟩

/-- `inputFluid` raises an error exactly when the incoming bulk mole
fractions, mapped into the local species set, sum below `DBL_EPSILON`. -/
theorem inputFluid_error_iff (fm : FluidModel) (st : DistIf) (p : ℚ)
    (fl : Fluid) :
    (∃ e, DistIf.inputFluid fm st p fl = Except.error e) ↔
      st.inData.getMoleFractions.sum < DBL_EPSILON := by
  unfold DistIf.inputFluid
  by_cases h : st.inData.getMoleFractions.sum < DBL_EPSILON
  · rw [if_pos h]
    exact iff_of_true ⟨GunnsError.InvalidInterfaceData, rfl⟩ h
  · rw [if_neg h]
    constructor
    · rintro ⟨e, he⟩
      exact Except.noConfusion he
    · intro hh
      exact absurd hh h

/-- When `inputFluid` succeeds, the returned scalar is the mapped bulk
fraction sum, and that sum is at least `DBL_EPSILON`. -/
theorem inputFluid_ok_sum (fm : FluidModel) (st : DistIf) (p : ℚ)
    (fl f : Fluid) (s : ℚ)
    (h : DistIf.inputFluid fm st p fl = Except.ok (f, s)) :
    s = st.inData.getMoleFractions.sum ∧
      ¬ st.inData.getMoleFractions.sum < DBL_EPSILON := by
  unfold DistIf.inputFluid at h
  by_cases hc : st.inData.getMoleFractions.sum < DBL_EPSILON
  · rw [if_pos hc] at h
    simp at h
  · rw [if_neg hc] at h
    simp only [Except.ok.injEq, Prod.mk.injEq] at h
    exact ⟨h.2.symm, hc⟩

/-- C6: with the link in Supply mode, every completed `processInputsSupply`
stamps the demand flux `−inSource · (1/1000) · S` where `S` is the
inbound bulk fraction sum mapped into the local species set, whenever the
inbound payload is valid and in Demand mode; with the inbound invalid or
in Supply mode the call completes with flux exactly 0, and in Demand mode
the flux is likewise exactly 0. -/
theorem c6_supplyDemandFlux (fm : FluidModel) (st : DistIf)
    (hmode : st.outData.demandMode = false) :
    ((st.inData.hasValidData = true ∧ st.inData.demandMode = true) →
      ∀ st', DistIf.processInputsSupply fm st = Except.ok st' →
        st'.demandFlux =
          -st.inData.source * KILO_PER_UNIT *
            st.inData.getMoleFractions.sum) ∧
    ((st.inData.hasValidData = false ∨ st.inData.demandMode = false) →
      ∃ st', DistIf.processInputsSupply fm st = Except.ok st' ∧
        st'.demandFlux = 0) ∧
    (∀ st₂ : DistIf, st₂.outData.demandMode = true →
      ∃ st', DistIf.processInputsSupply fm st₂ = Except.ok st' ∧
        st'.demandFlux = 0) := by
  refine ⟨?_, ?_, ?_⟩
  · rintro ⟨hvalid, hin⟩ st' hok
    simp only [DistIf.processInputsSupply, hmode, Bool.false_eq_true,
      if_true, hvalid, hin, and_self, if_true] at hok
    rcases hif : DistIf.inputFluid fm
        { st with demandFlux := 0, sourcePressure := 0 } 1
        ({ st with demandFlux := 0, sourcePressure := 0 }).internalFluid with
      e | ⟨f, s⟩
    · rw [hif] at hok
      simp at hok
    · rw [hif] at hok
      simp only [Except.ok.injEq] at hok
      obtain ⟨hs, -⟩ := inputFluid_ok_sum fm _ 1 _ f s hif
      rw [← hok]
      simp [hs]
  · intro hcase
    have hcond : ¬ (st.inData.hasValidData = true ∧
        st.inData.demandMode = true) := by
      rcases hcase with h | h <;> simp [h]
    refine ⟨{ st with demandFlux := 0, sourcePressure := 0 }, ?_, rfl⟩
    simp [DistIf.processInputsSupply, hmode, hcond]
  · intro st₂ h₂
    refine ⟨{ st₂ with demandFlux := 0 }, ?_, rfl⟩
    simp [DistIf.processInputsSupply, h₂]

/-- `processInputsSupply` raises an error exactly when the side is in
Supply mode with a valid Demand-mode inbound payload whose mapped bulk
fraction sum is below `DBL_EPSILON`. -/
theorem processInputsSupply_error_iff (fm : FluidModel) (st : DistIf)
    (e : GunnsError) :
    DistIf.processInputsSupply fm st = Except.error e ↔
      (st.outData.demandMode = false ∧ st.inData.hasValidData = true ∧
        st.inData.demandMode = true ∧
        st.inData.getMoleFractions.sum < DBL_EPSILON) := by
  have hrw : DistIf.processInputsSupply fm st =
      (if st.outData.demandMode = false then
        (if st.inData.hasValidData = true ∧ st.inData.demandMode = true then
          match DistIf.inputFluid fm
              { st with demandFlux := 0, sourcePressure := 0 } 1
              st.internalFluid with
          | .error e => .error e
          | .ok (f, s) =>
              .ok { st with
                    sourcePressure := 0
                    internalFluid := f
                    demandFlux := -st.inData.source * KILO_PER_UNIT * s }
        else .ok { st with demandFlux := 0, sourcePressure := 0 })
      else .ok { st with demandFlux := 0 }) := rfl
  rw [hrw]
  by_cases h1 : st.outData.demandMode = false
  · rw [if_pos h1]
    by_cases h2 : st.inData.hasValidData = true ∧ st.inData.demandMode = true
    · rw [if_pos h2]
      rcases hif : DistIf.inputFluid fm
          { st with demandFlux := 0, sourcePressure := 0 } 1
          st.internalFluid with e' | ⟨f, s⟩
      · have hs := (inputFluid_error_iff fm
          { st with demandFlux := 0, sourcePressure := 0 } 1
          st.internalFluid).mp ⟨e', hif⟩
        cases e'
        cases e
        exact iff_of_true rfl ⟨h1, h2.1, h2.2, hs⟩
      · obtain ⟨-, hge⟩ := inputFluid_ok_sum fm _ 1 _ f s hif
        exact iff_of_false (fun h => Except.noConfusion h)
          (fun h => hge h.2.2.2)
    · rw [if_neg h2]
      exact iff_of_false (fun h => Except.noConfusion h)
        (fun h => h2 ⟨h.2.1, h.2.2.1⟩)
  · rw [if_neg h1]
    exact iff_of_false (fun h => Except.noConfusion h) (fun h => h1 h.1)

/-- `processInputsDemand` raises an error exactly when the side is in
Demand mode with a valid Supply-mode inbound payload whose mapped bulk
fraction sum is below `DBL_EPSILON`. -/
theorem processInputsDemand_error_iff (fm : FluidModel) (st : DistIf)
    (e : GunnsError) :
    DistIf.processInputsDemand fm st = Except.error e ↔
      (st.outData.demandMode = true ∧ st.inData.hasValidData = true ∧
        st.inData.demandMode = false ∧
        st.inData.getMoleFractions.sum < DBL_EPSILON) := by
  unfold DistIf.processInputsDemand
  by_cases h1 : st.outData.demandMode
  · rw [if_pos h1]
    by_cases h2 : st.inData.hasValidData = true ∧ st.inData.demandMode = false
    · rw [if_pos h2]
      dsimp only
      rcases hif : DistIf.inputFluid fm st
          (st.inData.source * KILO_PER_UNIT) st.node.content with e' | ⟨f, s⟩
      · have hs := (inputFluid_error_iff fm st
          (st.inData.source * KILO_PER_UNIT) st.node.content).mp ⟨e', hif⟩
        cases e'
        cases e
        exact iff_of_true rfl ⟨h1, h2.1, h2.2, hs⟩
      · obtain ⟨-, hge⟩ := inputFluid_ok_sum fm _ _ _ f s hif
        exact iff_of_false (fun h => Except.noConfusion h)
          (fun h => hge h.2.2.2)
    · rw [if_neg h2]
      exact iff_of_false (fun h => Except.noConfusion h)
        (fun h => h2 ⟨h.2.1, h.2.2.1⟩)
  · rw [if_neg h1]
    exact iff_of_false (fun h => Except.noConfusion h) (fun h => h1 h.1)

/-- A Supply-side link receiving a valid Demand payload requesting
2 mol/s with a bulk fraction sum of 1/2. -/
def stSupplyIn : DistIf :=
  { base with
    inData := { payload0 with
      demandMode := true
      source := 2
      moleFractions := [1 / 2] } }

/-- C6 witness: the Supply-side flux stamp evaluated concretely: with
inbound source 2 mol/s and mapped bulk sum 1/2, the completed call stamps
−2·(1/1000)·(1/2) = −1/1000; on the fixture with a Supply-side inbound
the flux is 0. -/
theorem c6_supplyDemandFlux_witness :
    (∃ st', DistIf.processInputsSupply fmId stSupplyIn = Except.ok st' ∧
      st'.demandFlux = -(1 / 1000 : ℚ)) ∧
    (∃ st', DistIf.processInputsSupply fmId base = Except.ok st' ∧
      st'.demandFlux = 0) := by
  constructor
  · have hvalid : stSupplyIn.inData.hasValidData = true := by
      norm_num [stSupplyIn, payload0, IfData.hasValidData]
    have hsum : stSupplyIn.inData.getMoleFractions.sum = 1 / 2 := by
      norm_num [stSupplyIn, payload0, IfData.getMoleFractions,
        List.range_succ]
    rcases hrun : DistIf.processInputsSupply fmId stSupplyIn with e | st'
    · have := (processInputsSupply_error_iff fmId stSupplyIn e).mp hrun
      rw [hsum] at this
      norm_num [DBL_EPSILON] at this
    · refine ⟨st', rfl, ?_⟩
      have := (c6_supplyDemandFlux fmId stSupplyIn rfl).1 ⟨hvalid, rfl⟩
        st' hrun
      rw [this, hsum]
      norm_num [stSupplyIn, payload0, KILO_PER_UNIT]
  · exact (c6_supplyDemandFlux fmId base rfl).2.1 (Or.inr rfl)

/-- `flipModesOnInput` never touches the payloads' frame counters nor the
inbound payload. -/
theorem flipModesOnInput_preserves (st : DistIf) :
    (DistIf.flipModesOnInput st).inData = st.inData ∧
    (DistIf.flipModesOnInput st).outData.frameCount
      = st.outData.frameCount ∧
    (DistIf.flipModesOnInput st).outData.frameLoopback
      = st.outData.frameLoopback := by
  unfold DistIf.flipModesOnInput DistIf.flipToDemandMode
    DistIf.flipToSupplyMode
  split_ifs <;> simp

/-- A completed `processInputsDemand` leaves both payloads unchanged. -/
theorem processInputsDemand_ok_preserves (fm : FluidModel) (st st' : DistIf)
    (h : DistIf.processInputsDemand fm st = Except.ok st') :
    st'.inData = st.inData ∧ st'.outData = st.outData := by
  unfold DistIf.processInputsDemand at h
  split_ifs at h with h1 h2
  · dsimp only at h
    cases hif : DistIf.inputFluid fm st
        (st.inData.source * KILO_PER_UNIT) st.node.content with
    | error e => rw [hif] at h; exact Except.noConfusion h
    | ok fs =>
        obtain ⟨f, s⟩ := fs
        rw [hif] at h
        simp only [Except.ok.injEq] at h
        rw [← h]
        exact ⟨rfl, rfl⟩
  · simp only [Except.ok.injEq] at h
    rw [← h]
    exact ⟨rfl, rfl⟩
  · simp only [Except.ok.injEq] at h
    rw [← h]
    exact ⟨rfl, rfl⟩

/-- A completed `processInputsSupply` leaves both payloads unchanged. -/
theorem processInputsSupply_ok_preserves (fm : FluidModel) (st st' : DistIf)
    (h : DistIf.processInputsSupply fm st = Except.ok st') :
    st'.inData = st.inData ∧ st'.outData = st.outData := by
  have hrw : DistIf.processInputsSupply fm st =
      (if st.outData.demandMode = false then
        (if st.inData.hasValidData = true ∧ st.inData.demandMode = true then
          match DistIf.inputFluid fm
              { st with demandFlux := 0, sourcePressure := 0 } 1
              st.internalFluid with
          | .error e => .error e
          | .ok (f, s) =>
              .ok { st with
                    sourcePressure := 0
                    internalFluid := f
                    demandFlux := -st.inData.source * KILO_PER_UNIT * s }
        else .ok { st with demandFlux := 0, sourcePressure := 0 })
      else .ok { st with demandFlux := 0 }) := rfl
  rw [hrw] at h
  split_ifs at h with h1 h2
  · cases hif : DistIf.inputFluid fm
        { st with demandFlux := 0, sourcePressure := 0 } 1
        st.internalFluid with
    | error e => rw [hif] at h; exact Except.noConfusion h
    | ok fs =>
        obtain ⟨f, s⟩ := fs
        rw [hif] at h
        simp only [Except.ok.injEq] at h
        rw [← h]
        exact ⟨rfl, rfl⟩
  · simp only [Except.ok.injEq] at h
    rw [← h]
    exact ⟨rfl, rfl⟩
  · simp only [Except.ok.injEq] at h
    rw [← h]
    exact ⟨rfl, rfl⟩

/-- `processInputs` written out as a match on the two fallible input
phases (definitional unfolding of the `do` block). -/
theorem processInputs_eq (fm : FluidModel) (st : DistIf) :
    DistIf.processInputs fm st =
      (match DistIf.processInputsDemand fm (DistIf.flipModesOnInput st) with
      | .error e => .error e
      | .ok st₂ =>
        match DistIf.processInputsSupply fm st₂ with
        | .error e => .error e
        | .ok st₃ =>
          .ok { st₃ with
                outData := { st₃.outData with
                  frameCount := st₃.outData.frameCount + 1
                  frameLoopback := st₃.inData.frameCount }
                loopLatency := ((st₃.outData.frameCount + 1 : ℕ) : ℤ)
                  - (st₃.inData.frameLoopback : ℤ) }) := by
  unfold DistIf.processInputs
  dsimp only

/-- A Supply-side link with a valid Demand inbound payload whose single
bulk fraction 2⁻¹⁰⁰ sums below `DBL_EPSILON`. -/
def stSupplyTiny : DistIf :=
  { base with
    inData := { payload0 with
      demandMode := true
      source := 1000
      moleFractions := [1 / 2 ^ 100] }
    inDataLastDemandMode := true }

/-- C8 counterexample: the Invalid Interface Data error is raised on a
tick on which the link is in *Supply* mode (ingesting a valid Demand
payload whose mapped bulk sum 2⁻¹⁰⁰ is below `DBL_EPSILON`), so the error
is not confined to Demand mode. -/
theorem c8_invalidInterfaceData_counterexample :
    stSupplyTiny.outData.demandMode = false ∧
    DistIf.processInputs fmId stSupplyTiny =
      Except.error GunnsError.InvalidInterfaceData := by
  have hflip : DistIf.flipModesOnInput stSupplyTiny = stSupplyTiny := by
    simp [DistIf.flipModesOnInput, stSupplyTiny, base, payload0,
      IfData.hasValidData]
  have hd : DistIf.processInputsDemand fmId stSupplyTiny =
      Except.ok stSupplyTiny := by
    simp [DistIf.processInputsDemand, stSupplyTiny, base, payload0]
  have hs : DistIf.processInputsSupply fmId stSupplyTiny =
      Except.error GunnsError.InvalidInterfaceData := by
    refine (processInputsSupply_error_iff fmId stSupplyTiny
      GunnsError.InvalidInterfaceData).mpr ⟨rfl, ?_, rfl, ?_⟩
    · norm_num [stSupplyTiny, payload0, IfData.hasValidData]
    · have : stSupplyTiny.inData.getMoleFractions.sum = 1 / 2 ^ 100 := by
        norm_num [stSupplyTiny, payload0, IfData.getMoleFractions,
          List.range_succ]
      rw [this]
      norm_num [DBL_EPSILON]
  refine ⟨rfl, ?_⟩
  simp only [processInputs_eq, hflip, hd, hs]

/-- C8 (amended): over a whole `processInputs` tick, the Invalid Interface
Data error is raised iff, after the input-driven mode flips, the inbound
payload is valid, its mapped bulk fraction sum is below `DBL_EPSILON`,
and the two sides' Demand flags disagree (local Demand ingesting Supply
data, or local Supply ingesting Demand data); no other per-tick input
operation raises an error. -/
theorem c8_invalidInterfaceData (fm : FluidModel) (st : DistIf)
    (e : GunnsError) :
    DistIf.processInputs fm st = Except.error e ↔
      ((DistIf.flipModesOnInput st).inData.hasValidData = true ∧
        (DistIf.flipModesOnInput st).inData.getMoleFractions.sum
          < DBL_EPSILON ∧
        (DistIf.flipModesOnInput st).outData.demandMode ≠
          (DistIf.flipModesOnInput st).inData.demandMode) := by
  cases e
  rcases hd : DistIf.processInputsDemand fm (DistIf.flipModesOnInput st)
      with ed | st₂
  · have hedc := (processInputsDemand_error_iff fm
      (DistIf.flipModesOnInput st) ed).mp hd
    have hrun : DistIf.processInputs fm st =
        Except.error GunnsError.InvalidInterfaceData := by
      cases ed
      simp only [processInputs_eq, hd]
    rw [hrun]
    refine iff_of_true rfl ⟨hedc.2.1, hedc.2.2.2, ?_⟩
    rw [hedc.1, hedc.2.2.1]
    simp
  · rcases hsup : DistIf.processInputsSupply fm st₂ with es | st₃
    · have hesc := (processInputsSupply_error_iff fm st₂ es).mp hsup
      obtain ⟨hpi, hpo⟩ :=
        processInputsDemand_ok_preserves fm (DistIf.flipModesOnInput st)
          st₂ hd
      have hrun : DistIf.processInputs fm st =
          Except.error GunnsError.InvalidInterfaceData := by
        cases es
        simp only [processInputs_eq, hd, hsup]
      rw [hrun]
      refine iff_of_true rfl ⟨?_, ?_, ?_⟩
      · rw [← hpi]; exact hesc.2.1
      · rw [← hpi]; exact hesc.2.2.2
      · rw [← hpi, ← hpo, hesc.1, hesc.2.2.1]
        simp
    · have hok : ∀ ef, DistIf.processInputs fm st ≠ Except.error ef := by
        intro ef hrun
        rw [processInputs_eq] at hrun
        simp only [hd, hsup] at hrun
        exact Except.noConfusion hrun
      rcases hrun : DistIf.processInputs fm st with ef | stf
      · exact absurd hrun (hok ef)
      refine iff_of_false (fun h => Except.noConfusion h) ?_
      rintro ⟨hvalid, hsum, hne⟩
      obtain ⟨hpi, hpo⟩ :=
        processInputsDemand_ok_preserves fm (DistIf.flipModesOnInput st)
          st₂ hd
      rcases hmode : (DistIf.flipModesOnInput st).outData.demandMode with _ | _
      · -- local Supply after flips: the inbound must be Demand
        have hin : (DistIf.flipModesOnInput st).inData.demandMode = true := by
          cases hin2 : (DistIf.flipModesOnInput st).inData.demandMode
          · exact absurd (hmode.trans hin2.symm) hne
          · rfl
        have : DistIf.processInputsSupply fm st₂ =
            Except.error GunnsError.InvalidInterfaceData :=
          (processInputsSupply_error_iff fm st₂
            GunnsError.InvalidInterfaceData).mpr
            ⟨by rw [hpo]; exact hmode, by rw [hpi]; exact hvalid,
              by rw [hpi]; exact hin, by rw [hpi]; exact hsum⟩
        rw [hsup] at this
        exact Except.noConfusion this
      · -- local Demand after flips: the inbound must be Supply
        have hin : (DistIf.flipModesOnInput st).inData.demandMode = false := by
          cases hin2 : (DistIf.flipModesOnInput st).inData.demandMode
          · rfl
          · exact absurd (hmode.trans hin2.symm) hne
        have : DistIf.processInputsDemand fm (DistIf.flipModesOnInput st) =
            Except.error GunnsError.InvalidInterfaceData :=
          (processInputsDemand_error_iff fm (DistIf.flipModesOnInput st)
            GunnsError.InvalidInterfaceData).mpr
            ⟨hmode, hvalid, hin, hsum⟩
        rw [hd] at this
        exact Except.noConfusion this

/-- C8 witness: the amended characterization applied at the Supply-side
fixture with the 2⁻¹⁰⁰ bulk sum, producing the error concretely. -/
theorem c8_invalidInterfaceData_witness :
    DistIf.processInputs fmId stSupplyTiny =
      Except.error GunnsError.InvalidInterfaceData := by
  have hflip : DistIf.flipModesOnInput stSupplyTiny = stSupplyTiny := by
    simp [DistIf.flipModesOnInput, stSupplyTiny, base, payload0,
      IfData.hasValidData]
  refine (c8_invalidInterfaceData fmId stSupplyTiny
    GunnsError.InvalidInterfaceData).mpr ?_
  rw [hflip]
  refine ⟨by norm_num [stSupplyTiny, payload0, IfData.hasValidData], ?_, ?_⟩
  · have : stSupplyTiny.inData.getMoleFractions.sum = 1 / 2 ^ 100 := by
      norm_num [stSupplyTiny, payload0, IfData.getMoleFractions,
        List.range_succ]
    rw [this]
    norm_num [DBL_EPSILON]
  · norm_num [stSupplyTiny, base, payload0]

/-- C9: every completed `processInputs` tick increments the outbound frame
count by exactly 1 and then measures `loopLatency` as the new frame count
minus the inbound loopback; hence when the peer echoes the previously
published frame count, the measured latency is 1. -/
theorem c9_roundTrip (fm : FluidModel) (st st' : DistIf)
    (h : DistIf.processInputs fm st = Except.ok st') :
    st'.outData.frameCount = st.outData.frameCount + 1 ∧
    st'.loopLatency = ((st.outData.frameCount + 1 : ℕ) : ℤ)
      - (st.inData.frameLoopback : ℤ) ∧
    (st.inData.frameLoopback = st.outData.frameCount →
      st'.loopLatency = 1) := by
  rw [processInputs_eq] at h
  obtain ⟨hfi, hfc, -⟩ := flipModesOnInput_preserves st
  rcases hd : DistIf.processInputsDemand fm (DistIf.flipModesOnInput st)
      with ed | st₂
  · rw [hd] at h
    exact Except.noConfusion h
  · rw [hd] at h
    obtain ⟨hpi2, hpo2⟩ :=
      processInputsDemand_ok_preserves fm (DistIf.flipModesOnInput st) st₂ hd
    rcases hs : DistIf.processInputsSupply fm st₂ with es | st₃
    · simp only [hs] at h
      exact Except.noConfusion h
    · obtain ⟨hpi3, hpo3⟩ := processInputsSupply_ok_preserves fm st₂ st₃ hs
      simp only [hs, Except.ok.injEq] at h
      have hfc3 : st₃.outData.frameCount = st.outData.frameCount := by
        rw [hpo3, hpo2, hfc]
      have hfi3 : st₃.inData = st.inData := by
        rw [hpi3, hpi2, hfi]
      subst h
      refine ⟨by simp [hfc3], by simp [hfc3, hfi3], ?_⟩
      intro hecho
      simp only [hfc3, hfi3, hecho]
      push_cast
      ring

/-- A Supply-side link three frames in whose peer echoes the published
frame count 3 in its loopback field; the outbound capacitance 2 exceeds
the inbound 1, so no start-up flip occurs. -/
def stEcho : DistIf :=
  { base with
    outData := { payload0 with frameCount := 3, capacitance := 2 }
    inData := { payload0 with frameLoopback := 3 } }

/-- C9 witness: one completed tick on the echo fixture: frame count 3
advances to 4 and the measured loop latency is 4 − 3 = 1. -/
theorem c9_roundTrip_witness :
    ∃ st', DistIf.processInputs fmId stEcho = Except.ok st' ∧
      st'.outData.frameCount = 4 ∧ st'.loopLatency = 1 := by
  rcases hrun : DistIf.processInputs fmId stEcho with e | st'
  · rw [processInputs_eq] at hrun
    have hflip : DistIf.flipModesOnInput stEcho = stEcho := by
      simp [DistIf.flipModesOnInput, stEcho, base, payload0,
        IfData.hasValidData]
    rw [hflip] at hrun
    have hd : DistIf.processInputsDemand fmId stEcho = Except.ok stEcho := by
      simp [DistIf.processInputsDemand, stEcho, base, payload0]
    rw [hd] at hrun
    have hs : DistIf.processInputsSupply fmId stEcho =
        Except.ok { stEcho with demandFlux := 0, sourcePressure := 0 } := by
      have : ¬ (stEcho.inData.hasValidData = true ∧
          stEcho.inData.demandMode = true) := by
        rintro ⟨-, hdm⟩
        norm_num [stEcho, base, payload0] at hdm
      simp [DistIf.processInputsSupply, stEcho, base, payload0, this]
    simp only [hs] at hrun
    exact Except.noConfusion hrun
  · obtain ⟨h1, -, h3⟩ := c9_roundTrip fmId stEcho st' hrun
    refine ⟨st', rfl, ?_, h3 (by norm_num [stEcho, base, payload0])⟩
    rw [h1]
    norm_num [stEcho, base, payload0]

/-- C10: a `step(dt)` call in Supply mode (with the conductance limit
non-negative, as configured) zeroes the effective conductivity, stamps a
zero admittance diagonal, zeroes the supplied capacitance, and reduces
the source vector entry to the demand flux alone — the Demand-mode
pressure-source stamp contributes nothing. -/
theorem c10_supplyStampNeutral (st : DistIf) (dt : ℚ)
    (hmode : st.outData.demandMode = false)
    (hlim : 0 ≤ st.conductanceLimit) :
    (DistIf.step st dt).effectiveConductivity = 0 ∧
    (DistIf.step st dt).admittanceMatrix0 = 0 ∧
    (DistIf.step st dt).suppliedCapacitance = 0 ∧
    (DistIf.step st dt).sourceVector0 = st.demandFlux := by
  have hsc : limitRange 0 0 st.conductanceLimit = 0 := by
    simp [limitRange, min_eq_left hlim]
  simp only [DistIf.step, hmode, Bool.false_eq_true, false_and, if_false]
  by_cases hadm : |st.admittanceMatrix0 -
      limitRange 0 (0 : ℚ) st.conductanceLimit| > 0
  · simp only [hsc] at hadm ⊢
    rw [if_pos hadm]
    simp [hmode]
  · simp only [hsc] at hadm ⊢
    rw [if_neg hadm]
    have hzero : st.admittanceMatrix0 = 0 := by
      rw [not_lt] at hadm
      have := abs_nonneg (st.admittanceMatrix0 - 0)
      have habs : |st.admittanceMatrix0 - 0| = 0 := le_antisymm hadm this
      rw [abs_eq_zero, sub_zero] at habs
      exact habs
    simp [hmode, hzero]

/-- A Supply-side link carrying a pending demand flux of −3/1000, a stale
admittance entry 2 and a stale source pressure 5. -/
def stStale : DistIf :=
  { base with
    demandFlux := -(3 / 1000)
    admittanceMatrix0 := 2
    sourcePressure := 5 }

/-- C10 witness: the Supply-mode stamp evaluated on the fixture state with
a pending demand flux of −3/1000 and a stale admittance entry 2: all four
stamped quantities collapse as claimed. -/
theorem c10_supplyStampNeutral_witness :
    (DistIf.step stStale 1).effectiveConductivity = 0 ∧
    (DistIf.step stStale 1).admittanceMatrix0 = 0 ∧
    (DistIf.step stStale 1).suppliedCapacitance = 0 ∧
    (DistIf.step stStale 1).sourceVector0 = -(3 / 1000 : ℚ) := by
  have h := c10_supplyStampNeutral stStale 1 rfl
    (by norm_num [stStale, base])
  refine ⟨h.1, h.2.1, h.2.2.1, ?_⟩
  rw [h.2.2.2]
  norm_num [stStale, base]

/-- `processOutputsSupply` keeps the Demand flag, the flip gate inputs and
the inbound payload, and publishes the node potential (kPa → Pa) as the
outbound source. -/
theorem processOutputsSupply_fields (fm : FluidModel) (st : DistIf) :
    (DistIf.processOutputsSupply fm st).outData.demandMode
        = st.outData.demandMode ∧
    (DistIf.processOutputsSupply fm st).outData.source
        = st.node.potential * UNIT_PER_KILO ∧
    (DistIf.processOutputsSupply fm st).framesSinceFlip
        = st.framesSinceFlip ∧
    (DistIf.processOutputsSupply fm st).loopLatency = st.loopLatency ∧
    (DistIf.processOutputsSupply fm st).inData = st.inData ∧
    (DistIf.processOutputsSupply fm st).modingCapacitanceRatio
        = st.modingCapacitanceRatio ∧
    (DistIf.processOutputsSupply fm st).forceSupplyMode
        = st.forceSupplyMode := by
  simp [DistIf.processOutputsSupply, DistIf.outputCapacitance,
    DistIf.outputFluid, IfData.setMoleFractions, IfData.setTcMoleFractions]

/-- A Supply-side link whose inbound payload went invalid (frame count 0)
while the node sits at 101.325 kPa. -/
def stSilent : DistIf :=
  { base with inData := { payload0 with frameCount := 0 } }

/-- C7 counterexample: on a tick with an invalid inbound payload and no
force flags, the Supply side's outbound source is the node potential in
Pa (101325), not the claimed 0 — Supply mode always advertises the node
pressure; the zero under peer silence is the stamped demand flux. -/
theorem c7_invalidInboundNeutral_counterexample :
    stSilent.inData.hasValidData = false ∧
    stSilent.outData.demandMode = false ∧
    stSilent.forceDemandMode = false ∧
    stSilent.forceSupplyMode = false ∧
    (DistIf.processOutputs fmId stSilent).outData.source = 101325 ∧
    (DistIf.processOutputs fmId stSilent).outData.source ≠ 0 := by
  refine ⟨by norm_num [stSilent, payload0, IfData.hasValidData], rfl, rfl,
    rfl, ?_, ?_⟩ <;>
    norm_num [stSilent, base, payload0, fmId, fluid0, node0,
      DistIf.processOutputs, DistIf.processOutputsSupply,
      DistIf.outputCapacitance, DistIf.outputFluid, IfData.setMoleFractions,
      IfData.setTcMoleFractions, DistIf.flipModesOnCapacitance,
      DistIf.flipToDemandMode, UNIT_PER_KILO, List.range_succ]

/-- C7 (amended): on a tick whose inbound payload fails the validity
predicate and with neither force flag set, `processInputs` completes
without error, holds the mode, zeroes the stamped demand flux, and holds
`sourcePressure` at the node potential in Demand mode (0 in Supply mode);
`processOutputs` in Supply mode publishes the node potential in Pa as the
outbound source and holds the mode provided the capacitance flip gate
(which reads the inbound capacitance even from an invalid payload) does
not fire; in Demand mode the mode is likewise held. -/
theorem c7_invalidInboundNeutral (fm : FluidModel) (st : DistIf)
    (hvalid : st.inData.hasValidData = false)
    (hfd : st.forceDemandMode = false)
    (hfs : st.forceSupplyMode = false) :
    (∃ st', DistIf.processInputs fm st = Except.ok st' ∧
      st'.outData.demandMode = st.outData.demandMode ∧
      st'.demandFlux = 0 ∧
      (st.outData.demandMode = true →
        st'.sourcePressure = st.node.potential) ∧
      (st.outData.demandMode = false → st'.sourcePressure = 0)) ∧
    (st.outData.demandMode = false →
      ¬ (st.loopLatency < st.framesSinceFlip ∧
          (DistIf.processOutputsSupply fm st).outData.capacitance *
            st.modingCapacitanceRatio < st.inData.capacitance) →
      (DistIf.processOutputs fm st).outData.demandMode = false ∧
      (DistIf.processOutputs fm st).outData.source
        = st.node.potential * UNIT_PER_KILO) ∧
    (st.outData.demandMode = true →
      (DistIf.processOutputs fm st).outData.demandMode = true) := by
  have hflip : DistIf.flipModesOnInput st = st := by
    simp [DistIf.flipModesOnInput, hfd, hfs, hvalid]
  refine ⟨?_, ?_, ?_⟩
  · by_cases hm : st.outData.demandMode = true
    · have hd : DistIf.processInputsDemand fm st =
          Except.ok { st with sourcePressure := st.node.potential } := by
        simp [DistIf.processInputsDemand, hm, hvalid]
      have hs : DistIf.processInputsSupply fm
          { st with sourcePressure := st.node.potential } =
          Except.ok
            { st with sourcePressure := st.node.potential, demandFlux := 0 }
          := by
        simp [DistIf.processInputsSupply, hm]
      refine ⟨{ st with
          sourcePressure := st.node.potential
          demandFlux := 0
          outData := { st.outData with
            frameCount := st.outData.frameCount + 1
            frameLoopback := st.inData.frameCount }
          loopLatency := ((st.outData.frameCount + 1 : ℕ) : ℤ)
            - (st.inData.frameLoopback : ℤ) }, ?_, rfl, rfl,
          fun _ => rfl, ?_⟩
      · rw [processInputs_eq, hflip]
        simp only [hd, hs]
      · intro hfalse
        rw [hfalse] at hm
        exact Bool.noConfusion hm
    · have hm2 : st.outData.demandMode = false := by
        cases h2 : st.outData.demandMode
        · rfl
        · exact absurd h2 hm
      have hd : DistIf.processInputsDemand fm st = Except.ok st := by
        simp [DistIf.processInputsDemand, hm2]
      have hs : DistIf.processInputsSupply fm st =
          Except.ok { st with demandFlux := 0, sourcePressure := 0 } := by
        simp [DistIf.processInputsSupply, hm2, hvalid]
      refine ⟨{ st with
          demandFlux := 0
          sourcePressure := 0
          outData := { st.outData with
            frameCount := st.outData.frameCount + 1
            frameLoopback := st.inData.frameCount }
          loopLatency := ((st.outData.frameCount + 1 : ℕ) : ℤ)
            - (st.inData.frameLoopback : ℤ) }, ?_, rfl, rfl, ?_,
          fun _ => rfl⟩
      · rw [processInputs_eq, hflip]
        simp only [hd, hs]
      · intro htrue
        rw [htrue] at hm2
        exact Bool.noConfusion hm2
  · intro hm2 hng
    obtain ⟨f1, f2, f3, f4, f5, f6, -⟩ := processOutputsSupply_fields fm st
    simp only [DistIf.processOutputs, hm2, Bool.false_eq_true, if_false]
    simp only [DistIf.flipModesOnCapacitance, f3, f4, f5, f6]
    rw [if_neg hng]
    constructor
    · simp [f1, hm2]
    · simp [f2]
  · intro hm
    simp [DistIf.processOutputs, hm, DistIf.processOutputsDemand,
      DistIf.outputCapacitance, DistIf.outputFluid, IfData.setMoleFractions,
      IfData.setTcMoleFractions]

/-- C7 witness: the amended neutral behavior evaluated on the silent-peer
fixture: the tick completes, the link stays in Supply mode with zero
demand flux and zero source pressure, and the published source is
101.325 kPa · 1000. -/
theorem c7_invalidInboundNeutral_witness :
    (∃ st', DistIf.processInputs fmId stSilent = Except.ok st' ∧
      st'.outData.demandMode = stSilent.outData.demandMode ∧
      st'.demandFlux = 0 ∧
      (stSilent.outData.demandMode = true →
        st'.sourcePressure = stSilent.node.potential) ∧
      (stSilent.outData.demandMode = false → st'.sourcePressure = 0)) ∧
    (DistIf.processOutputs fmId stSilent).outData.demandMode = false ∧
    (DistIf.processOutputs fmId stSilent).outData.source
      = stSilent.node.potential * UNIT_PER_KILO := by
  have h := c7_invalidInboundNeutral fmId stSilent
    (by norm_num [stSilent, payload0, IfData.hasValidData]) rfl rfl
  refine ⟨h.1, h.2.1 rfl ?_⟩
  rintro ⟨hgate, -⟩
  norm_num [stSilent, base] at hgate

end Gunns
